import Mathlib

/-!
Verification development for the self-signed certificate lifecycle manager
(class SSLManager in ssl_setup.py).

The Python code is shallowly embedded as follows.

Data model: an RSA private key is represented by its size, public exponent,
and the random draw that produced its modulus; an X.509 certificate records
subject, issuer, public key, serial number, validity window, the single
Subject Alternative Name extension the code adds, and the key and digest the
signature was produced with.

Effects: the code draws fresh randomness (RSA key material, serial numbers),
reads the UTC clock twice per certificate, and performs file writes that may
fail.  These sources are modelled by an Oracle of streams indexed by call
counters kept in a World, which also carries the filesystem (a map from path
strings to file contents plus a set of existing directories).  A file write
succeeds only when the store directory exists and the write oracle permits
it; Python exceptions are modelled by returning the partially updated World
together with an Except error, exactly mirroring where the Python code can
raise and what state is left behind.
-/

namespace SSLSetup

/-- An RSA private key as produced by rsa.generate_private_key: its modulus
size in bits, its public exponent, and the random material it was built
from (identifying the concrete draw, since two independent draws of a
2048-bit key coincide with negligible probability). -/
structure RSAPrivateKey where
  key_size : Nat
  public_exponent : Nat
  material : Nat
deriving DecidableEq

/-- The public half of an RSA key (key.public_key() in the code). -/
def RSAPrivateKey.publicKey (k : RSAPrivateKey) : Nat × Nat :=
  (k.material, k.public_exponent)

/-- Signature digest algorithms used by the code (hashes.SHA256()). -/
inductive DigestAlgorithm where
  | sha256
deriving DecidableEq

/-- One attribute of an X.509 name: an OID (as dotted string) and a value.
NameOID.COMMON_NAME is "2.5.4.3" and NameOID.ORGANIZATION_NAME is
"2.5.4.10". -/
structure X509NameAttr where
  oid : String
  value : String
deriving DecidableEq

/-- An x509.Name is an ordered list of attributes. -/
abbrev X509Name := List X509NameAttr

/-- A general name as used in the Subject Alternative Name extension; the
code only ever produces DNS names (x509.DNSName). -/
inductive GeneralName where
  | dnsName (s : String)
deriving DecidableEq

/-- The Subject Alternative Name extension: its entries and its
criticality flag. -/
structure SubjectAltNameExt where
  names : List GeneralName
  critical : Bool
deriving DecidableEq

/-- An X.509 certificate as assembled by the CertificateBuilder chain in
generate_self_signed_cert.  Times are seconds since the epoch (UTC).
signature_key is the key whose private half produced the signature and
signature_digest the digest algorithm passed to sign. -/
structure Certificate where
  subject : X509Name
  issuer : X509Name
  public_key : Nat × Nat
  serial_number : Nat
  not_valid_before : Int
  not_valid_after : Int
  san : SubjectAltNameExt
  signature_key : RSAPrivateKey
  signature_digest : DigestAlgorithm
deriving DecidableEq

/-- Contents of a file on disk: a PEM-serialized private key, a
PEM-serialized certificate, or raw bytes (covering truncated or otherwise
invalid data).  PEM serialization is injective, which the constructors
reflect. -/
inductive FileContent where
  | keyPEM (k : RSAPrivateKey)
  | certPEM (c : Certificate)
  | raw (s : String)
deriving DecidableEq

/-- The filesystem: file contents by path, and the set of directories that
exist. -/
structure FS where
  files : String → Option FileContent
  dirs : List String

/-- The environment the code samples from.  rsa_material enumerates the
successive random draws of rsa.generate_private_key, serial the successive
values of x509.random_serial_number(), now the successive readings of
datetime.datetime.utcnow() in seconds since the epoch, and write_ok whether
the n-th file write performed by the process succeeds (modelling I/O
failures such as a full disk). -/
structure Oracle where
  rsa_material : Nat → Nat
  serial : Nat → Nat
  now : Nat → Int
  write_ok : Nat → Bool

/-- Mutable process state: the filesystem plus the call counters into each
oracle stream. -/
structure World where
  fs : FS
  rsa_calls : Nat
  serial_calls : Nat
  clock_calls : Nat
  write_calls : Nat

/-- Errors surfaced to the caller: an OSError from open/write, or an
ssl.SSLError from load_cert_chain. -/
inductive Err where
  | ioError (path : String)
  | sslError (path : String)
deriving DecidableEq

/-- Writing a file with open(path, "wb") followed by f.write: it succeeds
only when the containing directory exists and the write oracle allows this
write; on failure the filesystem is untouched and the error propagates. -/
def writeFile (o : Oracle) (w : World) (dir path : String) (c : FileContent) :
    World × Except Err Unit :=
  let w' := { w with write_calls := w.write_calls + 1 }
  if dir ∈ w.fs.dirs ∧ o.write_ok w.write_calls = true then
    ({ w' with
        fs := { w'.fs with
                  files := fun p => if p = path then some c else w.fs.files p } },
      Except.ok ())
  else
    (w', Except.error (Err.ioError path))

/-- The key-file path derivation from SSLManager.__init__:
cert_dir / (common_name ++ ".key.pem"). -/
def derivedKeyPath (dir cn : String) : String :=
  dir ++ "/" ++ cn ++ ".key.pem"

/-- The certificate-file path derivation from SSLManager.__init__:
cert_dir / (common_name ++ ".cert.pem"). -/
def derivedCertPath (dir cn : String) : String :=
  dir ++ "/" ++ cn ++ ".cert.pem"

/-- Splitting a character list at every '/' separator, as the textual
parsing step of a pathlib PurePosixPath does. -/
def splitOnSlash (l : List Char) : List (List Char) :=
  match l with
  | [] => [[]]
  | c :: rest =>
      if c = '/' then [] :: splitOnSlash rest
      else
        match splitOnSlash rest with
        | [] => [[c]]
        | s :: ss => (c :: s) :: ss

/-- Whether a textual path is absolute (starts with a '/'). -/
def isAbs : List Char → Bool
  | [] => false
  | c :: _ => c == '/'

/-- The normalized segments of a textual path, as pathlib keeps them:
duplicate slashes (empty segments) and single-dot segments are dropped,
while every other segment — including '..' — is kept. -/
def normSegs (l : List Char) : List (List Char) :=
  (splitOnSlash l).filter fun s => !(s == [] || s == ['.'])

/-- A pathlib-style pure path: its absoluteness and its normalized
segments.  Two textual paths denote the same file exactly when they have
the same RealPath. -/
structure RealPath where
  absolute : Bool
  segments : List (List Char)
deriving DecidableEq

/-- The pure path a string denotes (PurePosixPath(s)). -/
def realPathOf (s : String) : RealPath :=
  { absolute := isAbs s.data, segments := normSegs s.data }

/-- The pathlib join operator (p / q): an absolute right operand replaces
the left one, otherwise the segments are concatenated. -/
def joinRealPath (p q : RealPath) : RealPath :=
  if q.absolute then q else { absolute := p.absolute, segments := p.segments ++ q.segments }

/-- The real (pathlib) path of the key file:
Path(cert_dir) / (common_name ++ ".key.pem"), as line 46 computes it. -/
def realKeyPath (dir cn : String) : RealPath :=
  joinRealPath (realPathOf dir) (realPathOf (cn ++ ".key.pem"))

/-- The real (pathlib) path of the certificate file:
Path(cert_dir) / (common_name ++ ".cert.pem"), as line 47 computes it. -/
def realCertPath (dir cn : String) : RealPath :=
  joinRealPath (realPathOf dir) (realPathOf (cn ++ ".cert.pem"))

/-- The state of an SSLManager instance after __init__: configuration plus
the two derived paths. -/
structure SSLManager where
  common_name : String
  valid_days : Int
  key_size : Nat
  cert_dir : String
  key_path : String
  cert_path : String

/-- A manager whose stored paths agree with the derivation performed by
__init__ (every instance the constructor produces satisfies this). -/
def SSLManager.WellFormed (m : SSLManager) : Prop :=
  m.key_path = derivedKeyPath m.cert_dir m.common_name ∧
  m.cert_path = derivedCertPath m.cert_dir m.common_name

/-- The store-directory resolution in __init__: the given directory when
one is passed, else HOME/.py_utils/certs. -/
def resolveCertDir (cert_dir : Option String) (home : String) : String :=
  match cert_dir with
  | some d => d
  | none => home ++ "/.py_utils/certs"

/-- Path.mkdir(parents=True, exist_ok=True): adds the directory when it is
absent and never touches files. -/
def mkdirParents (fs : FS) (dir : String) : FS :=
  if dir ∈ fs.dirs then fs else { fs with dirs := dir :: fs.dirs }

/-- SSLManager.__init__: records the configuration, resolves the store
directory, creates that directory if absent, and derives the two file
paths. -/
def mkSSLManager (common_name : String) (cert_dir : Option String)
    (valid_days : Int) (key_size : Nat) (home : String) (w : World) :
    SSLManager × World :=
  ({ common_name := common_name
     valid_days := valid_days
     key_size := key_size
     cert_dir := resolveCertDir cert_dir home
     key_path := derivedKeyPath (resolveCertDir cert_dir home) common_name
     cert_path := derivedCertPath (resolveCertDir cert_dir home) common_name },
    { w with fs := mkdirParents w.fs (resolveCertDir cert_dir home) })

/-- The RSA key generated at the top of generate_self_signed_cert:
public_exponent 65537, key_size from the configuration, material from the
next random draw. -/
def buildKey (o : Oracle) (m : SSLManager) (w : World) : RSAPrivateKey :=
  { key_size := m.key_size
    public_exponent := 65537
    material := o.rsa_material w.rsa_calls }

/-- The subject (= issuer) name built in generate_self_signed_cert: Common
Name from the configuration and the fixed Organization Name
"Local Development". -/
def subjectName (cn : String) : X509Name :=
  [{ oid := "2.5.4.3", value := cn },
    { oid := "2.5.4.10", value := "Local Development" }]

/-- The certificate assembled by the CertificateBuilder chain: subject equal
to issuer, the public half of the given key, the next random serial, the
next clock reading as not-before, the clock reading after that plus
valid_days worth of seconds as not-after (the code calls utcnow() twice),
a single non-critical DNS Subject Alternative Name, signed with the given
key under SHA-256. -/
def buildCert (o : Oracle) (m : SSLManager) (w : World) (key : RSAPrivateKey) :
    Certificate :=
  { subject := subjectName m.common_name
    issuer := subjectName m.common_name
    public_key := key.publicKey
    serial_number := o.serial w.serial_calls
    not_valid_before := o.now w.clock_calls
    not_valid_after := o.now (w.clock_calls + 1) + m.valid_days * 86400
    san := { names := [GeneralName.dnsName m.common_name], critical := false }
    signature_key := key
    signature_digest := DigestAlgorithm.sha256 }

/-- The certificate produced by one run of generate_self_signed_cert from
world w: built from the fresh key of that run. -/
def generatedCertificate (o : Oracle) (m : SSLManager) (w : World) :
    Certificate :=
  buildCert o m w (buildKey o m w)

/-- The oracle draws one run of generate_self_signed_cert consumes before
reaching the file writes: one RSA key draw, one serial draw, and two
utcnow readings. -/
def afterDraws (w : World) : World :=
  { w with
      rsa_calls := w.rsa_calls + 1
      serial_calls := w.serial_calls + 1
      clock_calls := w.clock_calls + 2 }

/-- SSLManager.generate_self_signed_cert: generates a fresh key, builds the
self-signed certificate (consuming one serial draw and two clock readings),
then writes the key file and afterwards the certificate file; a failing
write propagates its error, leaving whatever was already written in
place. -/
def generate_self_signed_cert (o : Oracle) (m : SSLManager) (w : World) :
    World × Except Err Unit :=
  match writeFile o (afterDraws w) m.cert_dir m.key_path
      (FileContent.keyPEM (buildKey o m w)) with
  | (w2, Except.error e) => (w2, Except.error e)
  | (w2, Except.ok ()) =>
      match writeFile o w2 m.cert_dir m.cert_path
          (FileContent.certPEM (generatedCertificate o m w)) with
      | (w3, Except.error e) => (w3, Except.error e)
      | (w3, Except.ok ()) => (w3, Except.ok ())

/-- SSLManager.ensure_certificate: if both derived files exist it returns
at once, otherwise it runs generate_self_signed_cert. -/
def ensure_certificate (o : Oracle) (m : SSLManager) (w : World) :
    World × Except Err Unit :=
  if (w.fs.files m.key_path).isSome ∧ (w.fs.files m.cert_path).isSome then
    (w, Except.ok ())
  else
    generate_self_signed_cert o m w

/-- The TLS purposes of ssl.create_default_context; the code passes
Purpose.CLIENT_AUTH to obtain a server-side context. -/
inductive TLSPurpose where
  | clientAuth
  | serverAuth
deriving DecidableEq

/-- An ssl.SSLContext after load_cert_chain: its purpose and the loaded
certificate and key. -/
structure SSLContext where
  purpose : TLSPurpose
  cert : Certificate
  key : RSAPrivateKey
deriving DecidableEq

/-- context.load_cert_chain(certfile, keyfile): reads both files; it fails
with an SSLError unless the certificate file parses as a certificate, the
key file parses as a private key, and the key matches the certificate
public key.  It never writes anything. -/
def load_cert_chain (w : World) (certfile keyfile : String) :
    Except Err (Certificate × RSAPrivateKey) :=
  match w.fs.files certfile, w.fs.files keyfile with
  | some (FileContent.certPEM c), some (FileContent.keyPEM k) =>
      if c.public_key = k.publicKey then
        Except.ok (c, k)
      else
        Except.error (Err.sslError certfile)
  | _, _ => Except.error (Err.sslError certfile)

/-- SSLManager.get_ssl_context: runs ensure_certificate, then builds a
default context for Purpose.CLIENT_AUTH and loads the persisted pair into
it; any error propagates with the state as it was when the error was
raised. -/
def get_ssl_context (o : Oracle) (m : SSLManager) (w : World) :
    World × Except Err SSLContext :=
  match ensure_certificate o m w with
  | (w1, Except.error e) => (w1, Except.error e)
  | (w1, Except.ok ()) =>
      match load_cert_chain w1 m.cert_path m.key_path with
      | Except.error e => (w1, Except.error e)
      | Except.ok (c, k) =>
          (w1, Except.ok { purpose := TLSPurpose.clientAuth, cert := c, key := k })

/-! Concrete sample data used to evaluate the model on closed inputs. -/

/-- A sample environment: enumerable key material and serials, a clock
stuck at 0, and every write succeeding. -/
def sampleOracle : Oracle :=
  { rsa_material := fun n => n
    serial := fun n => n
    now := fun _ => 0
    write_ok := fun _ => true }

/-- An environment in which only the first write of the process succeeds
and every later write fails (for instance because the disk fills up). -/
def failSecondWriteOracle : Oracle :=
  { rsa_material := fun n => n
    serial := fun n => n
    now := fun _ => 0
    write_ok := fun n => n == 0 }

/-- A sample manager for common name "c" with store directory "d", exactly
as __init__ would build it. -/
def sampleManager : SSLManager :=
  { common_name := "c"
    valid_days := 3650
    key_size := 2048
    cert_dir := "d"
    key_path := derivedKeyPath "d" "c"
    cert_path := derivedCertPath "d" "c" }

/-- The sample manager reconfigured with a zero-day validity window. -/
def zeroDayManager : SSLManager :=
  { sampleManager with valid_days := 0 }

/-- A second sample manager, for the distinct common name "b" in the same
store directory. -/
def sampleManagerB : SSLManager :=
  { common_name := "b"
    valid_days := 3650
    key_size := 2048
    cert_dir := "d"
    key_path := derivedKeyPath "d" "b"
    cert_path := derivedCertPath "d" "b" }

/-- A sample world: the store directory exists and holds no files. -/
def sampleWorld : World :=
  { fs := { files := fun _ => none, dirs := ["d"] }
    rsa_calls := 0
    serial_calls := 0
    clock_calls := 0
    write_calls := 0 }

/-- A world in which both derived files exist with opaque raw contents. -/
def bothRawWorld : World :=
  { fs := { files := fun p =>
              if p = derivedKeyPath "d" "c" then some (FileContent.raw "x")
              else if p = derivedCertPath "d" "c" then some (FileContent.raw "y")
              else none
            dirs := ["d"] }
    rsa_calls := 0
    serial_calls := 0
    clock_calls := 0
    write_calls := 0 }

/-- A stale private key left over from an earlier run. -/
def staleKey : RSAPrivateKey :=
  { key_size := 2048, public_exponent := 65537, material := 99 }

/-- A stale certificate signed by the stale key. -/
def staleCert : Certificate :=
  { subject := subjectName "c"
    issuer := subjectName "c"
    public_key := staleKey.publicKey
    serial_number := 42
    not_valid_before := 0
    not_valid_after := 1
    san := { names := [GeneralName.dnsName "c"], critical := false }
    signature_key := staleKey
    signature_digest := DigestAlgorithm.sha256 }

/-- A world in which only the certificate file survives (the key file was
deleted), holding the stale certificate. -/
def certOnlyWorld : World :=
  { fs := { files := fun p =>
              if p = derivedCertPath "d" "c" then some (FileContent.certPEM staleCert)
              else none
            dirs := ["d"] }
    rsa_calls := 0
    serial_calls := 0
    clock_calls := 0
    write_calls := 0 }

/-- A world in which only the key file survives, holding the stale key. -/
def keyOnlyWorld : World :=
  { fs := { files := fun p =>
              if p = derivedKeyPath "d" "c" then some (FileContent.keyPEM staleKey)
              else none
            dirs := ["d"] }
    rsa_calls := 0
    serial_calls := 0
    clock_calls := 0
    write_calls := 0 }

/-- A world holding a good key file next to a corrupted (raw, unparsable)
certificate file. -/
def corruptedCertWorld : World :=
  { fs := { files := fun p =>
              if p = derivedKeyPath "d" "c" then some (FileContent.keyPEM staleKey)
              else if p = derivedCertPath "d" "c" then some (FileContent.raw "garbage")
              else none
            dirs := ["d"] }
    rsa_calls := 0
    serial_calls := 0
    clock_calls := 0
    write_calls := 0 }

/-- A world in which the store directory itself is absent. -/
def noDirWorld : World :=
  { fs := { files := fun _ => none, dirs := [] }
    rsa_calls := 0
    serial_calls := 0
    clock_calls := 0
    write_calls := 0 }

/-! Helper lemmas about path derivation. -/

/-- No string extended by ".key.pem" equals a string extended by
".cert.pem": the two fixed suffixes differ in their last eight
characters. -/
lemma key_suffix_ne_cert_suffix (x y : List Char)
    (h : x ++ ".key.pem".data = y ++ ".cert.pem".data) : False := by
  have h2 := congrArg (fun l => (List.reverse l).take 8) h
  simp only [List.reverse_append] at h2
  rw [List.take_append_of_le_length (by decide),
    List.take_append_of_le_length (by decide)] at h2
  exact absurd h2 (by decide)

/-- Splitting never yields the empty list of segments. -/
lemma splitOnSlash_ne_nil (l : List Char) : splitOnSlash l ≠ [] := by
  induction l with
  | nil => exact List.cons_ne_nil _ _
  | cons c rest ih =>
    simp only [splitOnSlash]
    split
    · exact List.cons_ne_nil _ _
    · split
      · exact List.cons_ne_nil _ _
      · exact List.cons_ne_nil _ _

/-- A separator-free character list splits into itself alone. -/
lemma splitOnSlash_no_slash (l : List Char) (h : ('/' : Char) ∉ l) :
    splitOnSlash l = [l] := by
  induction l with
  | nil => rfl
  | cons c rest ih =>
    have hc : c ≠ '/' := by
      intro hh
      subst hh
      exact h (List.mem_cons_self _ _)
    have hr : ('/' : Char) ∉ rest := fun hh => h (List.mem_cons_of_mem _ hh)
    simp only [splitOnSlash, if_neg hc, ih hr]

/-- Splitting distributes over a '/' separator. -/
lemma splitOnSlash_append (a b : List Char) :
    splitOnSlash (a ++ '/' :: b) = splitOnSlash a ++ splitOnSlash b := by
  induction a with
  | nil => simp [splitOnSlash]
  | cons c a2 ih =>
    by_cases hc : c = '/'
    · subst hc
      have hstep : ∀ x : List Char,
          splitOnSlash ('/' :: x) = [] :: splitOnSlash x := fun x => rfl
      rw [List.cons_append, hstep, hstep, ih]
      simp
    · obtain ⟨s, ss, hss⟩ := List.exists_cons_of_ne_nil (splitOnSlash_ne_nil a2)
      rw [List.cons_append]
      simp only [splitOnSlash, if_neg hc]
      rw [ih, hss]
      simp [List.cons_append]

/-- A separator-free, nonempty, non-dot character list normalizes to the
single segment it is. -/
lemma normSegs_single (l : List Char) (h : ('/' : Char) ∉ l) (h2 : l ≠ [])
    (h3 : l ≠ ['.']) : normSegs l = [l] := by
  unfold normSegs
  rw [splitOnSlash_no_slash l h]
  cases l with
  | nil => exact absurd rfl h2
  | cons x xs =>
    have hbeq : ((x :: xs : List Char) == ['.']) = false :=
      beq_eq_false_iff_ne.mpr h3
    simp [List.filter, hbeq]

/-- A path whose text contains no '/' is not absolute. -/
lemma isAbs_eq_false (l : List Char) (h : ('/' : Char) ∉ l) :
    isAbs l = false := by
  cases l with
  | nil => rfl
  | cons c rest =>
    have hc : c ≠ '/' := by
      intro hh
      subst hh
      exact h (List.mem_cons_self _ _)
    simp [isAbs, hc]

/-- Absoluteness is decided by the first character, so a nonempty prefix
determines it. -/
lemma isAbs_append (a b : List Char) (h : a ≠ []) :
    isAbs (a ++ b) = isAbs a := by
  cases a with
  | nil => exact absurd rfl h
  | cons c rest => rfl

/-- The file-name part a common name contributes, cn followed by a fixed
separator-free suffix, is itself separator-free, nonempty and not the dot
segment. -/
lemma relfile_facts (cn sfx : String) (h : ('/' : Char) ∉ cn.data)
    (hs1 : ('/' : Char) ∉ sfx.data) (hs2 : sfx.data ≠ [])
    (hs3 : sfx.data ≠ ['.']) :
    ('/' : Char) ∉ (cn.data ++ sfx.data) ∧
    cn.data ++ sfx.data ≠ [] ∧
    cn.data ++ sfx.data ≠ ['.'] := by
  refine ⟨?_, ?_, ?_⟩
  · intro hin
    rcases List.mem_append.mp hin with hin1 | hin2
    · exact h hin1
    · exact hs1 hin2
  · intro hz
    exact hs2 (List.append_eq_nil.mp hz).2
  · intro hz
    have hcn : cn.data = [] := by
      have hlen := congrArg List.length hz
      rw [List.length_append] at hlen
      have hone : (['.'] : List Char).length = 1 := rfl
      rw [hone] at hlen
      have hpos : 0 < sfx.data.length := List.length_pos.mpr hs2
      have : cn.data.length = 0 := by omega
      exact List.length_eq_zero.mp this
    rw [hcn, List.nil_append] at hz
    exact hs3 hz

/-- The pure path of cn ++ sfx for a separator-free common name and a
fixed file suffix: relative, with the single segment cn ++ sfx. -/
lemma realPathOf_append_suffix (cn sfx : String) (h : ('/' : Char) ∉ cn.data)
    (hs1 : ('/' : Char) ∉ sfx.data) (hs2 : sfx.data ≠ [])
    (hs3 : sfx.data ≠ ['.']) :
    realPathOf (cn ++ sfx) =
      { absolute := false, segments := [cn.data ++ sfx.data] } := by
  obtain ⟨hmem, hnil, hdot⟩ := relfile_facts cn sfx h hs1 hs2 hs3
  have hdata : (cn ++ sfx).data = cn.data ++ sfx.data := String.data_append _ _
  unfold realPathOf
  rw [hdata, isAbs_eq_false _ hmem, normSegs_single _ hmem hnil hdot]

/-- The real key-file path of a separator-free common name: the store
directory's segments followed by the single segment cn.key.pem. -/
lemma realKeyPath_eq (d cn : String) (h : ('/' : Char) ∉ cn.data) :
    realKeyPath d cn =
      { absolute := (realPathOf d).absolute
        segments := (realPathOf d).segments ++ [cn.data ++ ".key.pem".data] } := by
  unfold realKeyPath
  rw [realPathOf_append_suffix cn ".key.pem" h (by decide) (by decide) (by decide)]
  rfl

/-- The real certificate-file path of a separator-free common name: the
store directory's segments followed by the single segment cn.cert.pem. -/
lemma realCertPath_eq (d cn : String) (h : ('/' : Char) ∉ cn.data) :
    realCertPath d cn =
      { absolute := (realPathOf d).absolute
        segments := (realPathOf d).segments ++ [cn.data ++ ".cert.pem".data] } := by
  unfold realCertPath
  rw [realPathOf_append_suffix cn ".cert.pem" h (by decide) (by decide) (by decide)]
  rfl

/-- For a nonempty store directory and a separator-free common name, the
textual key path the manager stores denotes exactly the pathlib join of
the directory and the key file name. -/
lemma realPathOf_derivedKeyPath (d cn : String) (hd : d.data ≠ [])
    (h : ('/' : Char) ∉ cn.data) :
    realPathOf (derivedKeyPath d cn) = realKeyPath d cn := by
  obtain ⟨hmem, hnil, hdot⟩ :=
    relfile_facts cn ".key.pem" h (by decide) (by decide) (by decide)
  have hdata : (derivedKeyPath d cn).data =
      d.data ++ '/' :: (cn.data ++ ".key.pem".data) := by
    unfold derivedKeyPath
    have hslash : ("/" : String).data = ['/'] := rfl
    simp [String.data_append, hslash]
  have hns : normSegs (d.data ++ '/' :: (cn.data ++ ".key.pem".data)) =
      normSegs d.data ++ normSegs (cn.data ++ ".key.pem".data) := by
    unfold normSegs
    rw [splitOnSlash_append, List.filter_append]
  rw [realKeyPath_eq d cn h]
  unfold realPathOf
  rw [hdata, isAbs_append _ _ hd, hns,
    normSegs_single _ hmem hnil hdot]

/-- For a nonempty store directory and a separator-free common name, the
textual certificate path the manager stores denotes exactly the pathlib
join of the directory and the certificate file name. -/
lemma realPathOf_derivedCertPath (d cn : String) (hd : d.data ≠ [])
    (h : ('/' : Char) ∉ cn.data) :
    realPathOf (derivedCertPath d cn) = realCertPath d cn := by
  obtain ⟨hmem, hnil, hdot⟩ :=
    relfile_facts cn ".cert.pem" h (by decide) (by decide) (by decide)
  have hdata : (derivedCertPath d cn).data =
      d.data ++ '/' :: (cn.data ++ ".cert.pem".data) := by
    unfold derivedCertPath
    have hslash : ("/" : String).data = ['/'] := rfl
    simp [String.data_append, hslash]
  have hns : normSegs (d.data ++ '/' :: (cn.data ++ ".cert.pem".data)) =
      normSegs d.data ++ normSegs (cn.data ++ ".cert.pem".data) := by
    unfold normSegs
    rw [splitOnSlash_append, List.filter_append]
  rw [realCertPath_eq d cn h]
  unfold realPathOf
  rw [hdata, isAbs_append _ _ hd, hns,
    normSegs_single _ hmem hnil hdot]

/-- A key-file path never coincides with a certificate-file path, for any
directories and common names. -/
lemma derivedKeyPath_ne_derivedCertPath (d1 cn1 d2 cn2 : String) :
    derivedKeyPath d1 cn1 ≠ derivedCertPath d2 cn2 := by
  intro h
  unfold derivedKeyPath derivedCertPath at h
  rw [String.ext_iff] at h
  simp only [String.data_append] at h
  exact key_suffix_ne_cert_suffix _ _ h

/-- In a well-formed manager the two derived paths are distinct files. -/
lemma SSLManager.WellFormed.paths_ne {m : SSLManager} (h : m.WellFormed) :
    m.key_path ≠ m.cert_path := by
  rw [h.1, h.2]
  exact derivedKeyPath_ne_derivedCertPath _ _ _ _

/-- The constructor always produces a well-formed manager. -/
lemma mkSSLManager_wellFormed (cn : String) (dir : Option String)
    (v : Int) (k : Nat) (home : String) (w : World) :
    (mkSSLManager cn dir v k home w).1.WellFormed :=
  ⟨rfl, rfl⟩

/-- C4 counterexample: the code interpolates the common name into the
file name with no sanitization and pathlib's join collapses single-dot
segments and duplicate slashes, so the two distinct common names "x" and
"./x" (likewise "a/b" and "a//b") derive the very same real key and
certificate paths in the same store directory — the claimed universal
collision-freedom fails. -/
theorem path_derivation_counterexample :
    (("x" : String) ≠ "./x") ∧
    realKeyPath "d" "x" = realKeyPath "d" "./x" ∧
    realCertPath "d" "x" = realCertPath "d" "./x" ∧
    (("a/b" : String) ≠ "a//b") ∧
    realKeyPath "d" "a/b" = realKeyPath "d" "a//b" :=
  ⟨by decide, by decide, by decide, by decide, by decide⟩

/-- C4 (amended): path derivation is deterministic — the constructor
always derives the textual pair (cert_dir/cn.key.pem, cert_dir/cn.cert.pem)
independently of the other configuration values and of the filesystem —
and for a nonempty store directory those stored texts denote exactly the
pathlib joins of the directory with the two file names.  Collision-freedom
holds for common names free of the '/' separator: for two such distinct
names, the four real (pathlib-normalized) paths are pairwise distinct, a
key path never colliding with a certificate path even across names. -/
theorem path_derivation_normalized (d cn1 cn2 home1 home2 : String)
    (v1 v2 : Int) (k1 k2 : Nat) (w1 w2 : World)
    (h1 : ('/' : Char) ∉ cn1.data) (h2 : ('/' : Char) ∉ cn2.data)
    (hd : d ≠ "") (hne : cn1 ≠ cn2) :
    ((mkSSLManager cn1 (some d) v1 k1 home1 w1).1.key_path =
        derivedKeyPath d cn1 ∧
      (mkSSLManager cn1 (some d) v1 k1 home1 w1).1.cert_path =
        derivedCertPath d cn1) ∧
    ((mkSSLManager cn1 (some d) v1 k1 home1 w1).1.key_path =
        (mkSSLManager cn1 (some d) v2 k2 home2 w2).1.key_path ∧
      (mkSSLManager cn1 (some d) v1 k1 home1 w1).1.cert_path =
        (mkSSLManager cn1 (some d) v2 k2 home2 w2).1.cert_path) ∧
    (realPathOf (derivedKeyPath d cn1) = realKeyPath d cn1 ∧
      realPathOf (derivedCertPath d cn1) = realCertPath d cn1) ∧
    (realKeyPath d cn1 ≠ realKeyPath d cn2 ∧
      realCertPath d cn1 ≠ realCertPath d cn2 ∧
      realKeyPath d cn1 ≠ realCertPath d cn2 ∧
      realKeyPath d cn2 ≠ realCertPath d cn1) := by
  have hddata : d.data ≠ [] := fun hz => hd (String.ext_iff.mpr hz)
  refine ⟨⟨rfl, rfl⟩, ⟨rfl, rfl⟩,
    ⟨realPathOf_derivedKeyPath d cn1 hddata h1,
      realPathOf_derivedCertPath d cn1 hddata h1⟩, ?_, ?_, ?_, ?_⟩
  · intro heq
    rw [realKeyPath_eq d cn1 h1, realKeyPath_eq d cn2 h2] at heq
    have hseg := congrArg RealPath.segments heq
    have hx := List.append_cancel_left hseg
    injection hx with hxa hxb
    exact hne (String.ext_iff.mpr (List.append_cancel_right hxa))
  · intro heq
    rw [realCertPath_eq d cn1 h1, realCertPath_eq d cn2 h2] at heq
    have hseg := congrArg RealPath.segments heq
    have hx := List.append_cancel_left hseg
    injection hx with hxa hxb
    exact hne (String.ext_iff.mpr (List.append_cancel_right hxa))
  · intro heq
    rw [realKeyPath_eq d cn1 h1, realCertPath_eq d cn2 h2] at heq
    have hseg := congrArg RealPath.segments heq
    have hx := List.append_cancel_left hseg
    injection hx with hxa hxb
    exact key_suffix_ne_cert_suffix _ _ hxa
  · intro heq
    rw [realKeyPath_eq d cn2 h2, realCertPath_eq d cn1 h1] at heq
    have hseg := congrArg RealPath.segments heq
    have hx := List.append_cancel_left hseg
    injection hx with hxa hxb
    exact key_suffix_ne_cert_suffix _ _ hxa

/-- Witness for C4 (amended) at the store directory "certs" and the
separator-free distinct common names "a" and "b". -/
theorem path_derivation_normalized_witness :
    (realPathOf (derivedKeyPath "certs" "a") = realKeyPath "certs" "a" ∧
      realPathOf (derivedCertPath "certs" "a") = realCertPath "certs" "a") ∧
    (realKeyPath "certs" "a" ≠ realKeyPath "certs" "b" ∧
      realCertPath "certs" "a" ≠ realCertPath "certs" "b" ∧
      realKeyPath "certs" "a" ≠ realCertPath "certs" "b" ∧
      realKeyPath "certs" "b" ≠ realCertPath "certs" "a") :=
  ⟨(path_derivation_normalized "certs" "a" "b" "h" "g" 3650 7 2048 4096
      ⟨⟨fun _ => none, []⟩, 0, 0, 0, 0⟩ ⟨⟨fun _ => none, []⟩, 1, 1, 1, 1⟩
      (by decide) (by decide) (by decide) (by decide)).2.2.1,
    (path_derivation_normalized "certs" "a" "b" "h" "g" 3650 7 2048 4096
      ⟨⟨fun _ => none, []⟩, 0, 0, 0, 0⟩ ⟨⟨fun _ => none, []⟩, 1, 1, 1, 1⟩
      (by decide) (by decide) (by decide) (by decide)).2.2.2⟩

/-! Helper lemmas about writeFile. -/

/-- A write into an existing directory succeeds when the write oracle
allows it, and the resulting filesystem maps the path to the new
contents. -/
lemma writeFile_succeeds (o : Oracle) (w : World) (dir path : String)
    (c : FileContent) (hdir : dir ∈ w.fs.dirs)
    (hok : o.write_ok w.write_calls = true) :
    writeFile o w dir path c =
      ({ w with
          write_calls := w.write_calls + 1
          fs := { files := fun p => if p = path then some c else w.fs.files p
                  dirs := w.fs.dirs } }, Except.ok ()) := by
  unfold writeFile
  rw [if_pos ⟨hdir, hok⟩]

/-- A write fails when the write oracle denies it, leaving the filesystem
untouched. -/
lemma writeFile_fails_io (o : Oracle) (w : World) (dir path : String)
    (c : FileContent) (hok : o.write_ok w.write_calls = false) :
    writeFile o w dir path c =
      ({ w with write_calls := w.write_calls + 1 },
        Except.error (Err.ioError path)) := by
  unfold writeFile
  rw [if_neg]
  intro hcond
  rw [hcond.2] at hok
  cases hok

/-- A write into a missing directory fails, leaving the filesystem
untouched. -/
lemma writeFile_fails_no_dir (o : Oracle) (w : World) (dir path : String)
    (c : FileContent) (hdir : dir ∉ w.fs.dirs) :
    writeFile o w dir path c =
      ({ w with write_calls := w.write_calls + 1 },
        Except.error (Err.ioError path)) := by
  unfold writeFile
  rw [if_neg]
  intro hcond
  exact hdir hcond.1

/-- What a successful write guarantees: the target file holds the new
contents, every other file and the directory set are untouched, and no
oracle counter other than the write counter moves. -/
lemma writeFile_ok_spec {o : Oracle} {w : World} {dir path : String}
    {c : FileContent} {w' : World}
    (h : writeFile o w dir path c = (w', Except.ok ())) :
    w'.fs.files path = some c ∧
    (∀ p, p ≠ path → w'.fs.files p = w.fs.files p) ∧
    w'.fs.dirs = w.fs.dirs ∧
    w'.rsa_calls = w.rsa_calls ∧
    w'.serial_calls = w.serial_calls ∧
    w'.clock_calls = w.clock_calls ∧
    w'.write_calls = w.write_calls + 1 := by
  unfold writeFile at h
  split at h
  · injection h with h1 h2
    subst h1
    exact ⟨by simp, fun p hp => by simp [hp], rfl, rfl, rfl, rfl, rfl⟩
  · injection h with h1 h2
    cases h2

/-- What a failed write guarantees: the filesystem is exactly as before
and no oracle counter other than the write counter moves. -/
lemma writeFile_error_spec {o : Oracle} {w : World} {dir path : String}
    {c : FileContent} {w' : World} {e : Err}
    (h : writeFile o w dir path c = (w', Except.error e)) :
    w'.fs = w.fs ∧
    w'.rsa_calls = w.rsa_calls ∧
    w'.serial_calls = w.serial_calls ∧
    w'.clock_calls = w.clock_calls := by
  unfold writeFile at h
  split at h
  · injection h with h1 h2
    cases h2
  · injection h with h1 h2
    subst h1
    exact ⟨rfl, rfl, rfl, rfl⟩

/-! Helper lemmas about generate_self_signed_cert and
ensure_certificate. -/

/-- On success, generate_self_signed_cert leaves the certificate file
holding the freshly built certificate and (when the two derived paths are
distinct files) the key file holding the freshly generated key; both files
exist afterwards. -/
lemma generate_ok_spec {o : Oracle} {m : SSLManager} {w w' : World}
    (h : generate_self_signed_cert o m w = (w', Except.ok ())) :
    w'.fs.files m.cert_path =
      some (FileContent.certPEM (generatedCertificate o m w)) ∧
    (m.key_path ≠ m.cert_path →
      w'.fs.files m.key_path = some (FileContent.keyPEM (buildKey o m w))) ∧
    (w'.fs.files m.key_path).isSome = true := by
  unfold generate_self_signed_cert at h
  split at h
  · injection h with h1 h2
    cases h2
  · rename_i w2 heq
    split at h
    · injection h with h1 h2
      cases h2
    · rename_i w3 heq2
      injection h with h1 h2
      subst h1
      obtain ⟨hc, hother, -, -, -, -, -⟩ := writeFile_ok_spec heq2
      obtain ⟨hk, -, -, -, -, -, -⟩ := writeFile_ok_spec heq
      refine ⟨hc, fun hne => ?_, ?_⟩
      · rw [hother m.key_path hne]
        exact hk
      · by_cases hkc : m.key_path = m.cert_path
        · rw [hkc, hc]
          rfl
        · rw [hother m.key_path hkc, hk]
          rfl

/-- generate_self_signed_cert never touches the directory set and never
touches any file other than the two derived paths, whether it succeeds or
fails. -/
lemma generate_frame (o : Oracle) (m : SSLManager) (w : World) :
    (generate_self_signed_cert o m w).1.fs.dirs = w.fs.dirs ∧
    ∀ p, p ≠ m.key_path → p ≠ m.cert_path →
      (generate_self_signed_cert o m w).1.fs.files p = w.fs.files p := by
  unfold generate_self_signed_cert
  split
  · rename_i w2 e heq
    obtain ⟨hfs, -, -, -⟩ := writeFile_error_spec heq
    constructor
    · rw [hfs]
      rfl
    · intro p hp1 hp2
      rw [hfs]
      rfl
  · rename_i w2 heq
    obtain ⟨-, hother, hdirs, -, -, -, -⟩ := writeFile_ok_spec heq
    split
    · rename_i w3 e heq2
      obtain ⟨hfs3, -, -, -⟩ := writeFile_error_spec heq2
      constructor
      · rw [hfs3, hdirs]
        rfl
      · intro p hp1 hp2
        rw [hfs3, hother p hp1]
        rfl
    · rename_i w3 heq2
      obtain ⟨-, hother3, hdirs3, -, -, -, -⟩ := writeFile_ok_spec heq2
      constructor
      · rw [hdirs3, hdirs]
        rfl
      · intro p hp1 hp2
        rw [hother3 p hp2, hother p hp1]
        rfl

/-- generate_self_signed_cert consumes exactly one serial draw, whether
the writes succeed or fail. -/
lemma generate_serial_calls (o : Oracle) (m : SSLManager) (w : World) :
    (generate_self_signed_cert o m w).1.serial_calls = w.serial_calls + 1 := by
  unfold generate_self_signed_cert
  split
  · rename_i w2 e heq
    obtain ⟨-, -, hs, -⟩ := writeFile_error_spec heq
    exact hs
  · rename_i w2 heq
    obtain ⟨-, -, -, -, hs, -, -⟩ := writeFile_ok_spec heq
    split
    · rename_i w3 e heq2
      obtain ⟨-, -, hs3, -⟩ := writeFile_error_spec heq2
      rw [hs3, hs]
      rfl
    · rename_i w3 heq2
      obtain ⟨-, -, -, -, hs3, -, -⟩ := writeFile_ok_spec heq2
      rw [hs3, hs]
      rfl

/-- When both derived files exist, ensure_certificate returns its input
world unchanged. -/
lemma ensure_of_exists (o : Oracle) (m : SSLManager) (w : World)
    (h1 : (w.fs.files m.key_path).isSome = true)
    (h2 : (w.fs.files m.cert_path).isSome = true) :
    ensure_certificate o m w = (w, Except.ok ()) := by
  unfold ensure_certificate
  rw [if_pos ⟨h1, h2⟩]

/-- When at least one derived file is missing, ensure_certificate is
exactly generate_self_signed_cert. -/
lemma ensure_of_missing (o : Oracle) (m : SSLManager) (w : World)
    (h : ¬((w.fs.files m.key_path).isSome = true ∧
          (w.fs.files m.cert_path).isSome = true)) :
    ensure_certificate o m w = generate_self_signed_cert o m w := by
  unfold ensure_certificate
  rw [if_neg h]

/-- After a successful ensure_certificate, both derived files exist. -/
lemma ensure_ok_exists {o : Oracle} {m : SSLManager} {w w' : World}
    (h : ensure_certificate o m w = (w', Except.ok ())) :
    (w'.fs.files m.key_path).isSome = true ∧
    (w'.fs.files m.cert_path).isSome = true := by
  unfold ensure_certificate at h
  split at h
  · rename_i hcond
    injection h with h1 h2
    subst h1
    exact hcond
  · have hspec := generate_ok_spec h
    refine ⟨hspec.2.2, ?_⟩
    rw [hspec.1]
    rfl

/-- C1: a successful run of generate_self_signed_cert persists a fresh RSA
private key of the configured size with public exponent 65537 and a
certificate whose issuer equals its subject, whose subject carries the
configured Common Name together with the fixed Organization Name
"Local Development", which holds exactly one non-critical DNS Subject
Alternative Name equal to the common name, and which is signed with the
newly generated key under a SHA-256 digest. -/
theorem generate_self_signed_cert_correct (o : Oracle) (m : SSLManager)
    (w w' : World) (hwf : m.WellFormed)
    (h : generate_self_signed_cert o m w = (w', Except.ok ())) :
    w'.fs.files m.key_path = some (FileContent.keyPEM (buildKey o m w)) ∧
    w'.fs.files m.cert_path =
      some (FileContent.certPEM (generatedCertificate o m w)) ∧
    (buildKey o m w).key_size = m.key_size ∧
    (buildKey o m w).public_exponent = 65537 ∧
    (buildKey o m w).material = o.rsa_material w.rsa_calls ∧
    (generatedCertificate o m w).issuer = (generatedCertificate o m w).subject ∧
    (generatedCertificate o m w).subject =
      [{ oid := "2.5.4.3", value := m.common_name },
        { oid := "2.5.4.10", value := "Local Development" }] ∧
    (generatedCertificate o m w).san =
      { names := [GeneralName.dnsName m.common_name], critical := false } ∧
    (generatedCertificate o m w).signature_key = buildKey o m w ∧
    (generatedCertificate o m w).signature_digest = DigestAlgorithm.sha256 ∧
    (generatedCertificate o m w).public_key = (buildKey o m w).publicKey := by
  obtain ⟨hc, hk, -⟩ := generate_ok_spec h
  exact ⟨hk hwf.paths_ne, hc, rfl, rfl, rfl, rfl, rfl, rfl, rfl, rfl, rfl⟩

/-- Witness for C1: running generation in the sample world persists the
fresh pair. -/
theorem generate_self_signed_cert_correct_witness :
    (generate_self_signed_cert sampleOracle sampleManager sampleWorld).1.fs.files
        sampleManager.key_path =
      some (FileContent.keyPEM (buildKey sampleOracle sampleManager sampleWorld)) ∧
    (generate_self_signed_cert sampleOracle sampleManager sampleWorld).1.fs.files
        sampleManager.cert_path =
      some (FileContent.certPEM
        (generatedCertificate sampleOracle sampleManager sampleWorld)) :=
  ⟨(generate_self_signed_cert_correct sampleOracle sampleManager sampleWorld
      (generate_self_signed_cert sampleOracle sampleManager sampleWorld).1
      ⟨rfl, rfl⟩ rfl).1,
    (generate_self_signed_cert_correct sampleOracle sampleManager sampleWorld
      (generate_self_signed_cert sampleOracle sampleManager sampleWorld).1
      ⟨rfl, rfl⟩ rfl).2.1⟩

/-- C2: ensure_certificate is idempotent — once a call has succeeded, a
second call (under any environment) returns the very same world with no
regeneration and no writes. -/
theorem ensure_certificate_idempotent (o o2 : Oracle) (m : SSLManager)
    (w w1 : World) (h : ensure_certificate o m w = (w1, Except.ok ())) :
    ensure_certificate o2 m w1 = (w1, Except.ok ()) := by
  obtain ⟨h1, h2⟩ := ensure_ok_exists h
  exact ensure_of_exists o2 m w1 h1 h2

/-- Witness for C2: after a first successful ensure_certificate in the
sample world, the second call returns the same world unchanged. -/
theorem ensure_certificate_idempotent_witness :
    ensure_certificate sampleOracle sampleManager
        (ensure_certificate sampleOracle sampleManager sampleWorld).1 =
      ((ensure_certificate sampleOracle sampleManager sampleWorld).1,
        Except.ok ()) :=
  ensure_certificate_idempotent sampleOracle sampleOracle sampleManager
    sampleWorld (ensure_certificate sampleOracle sampleManager sampleWorld).1 rfl

/-- C3: ensure_certificate invokes generation exactly when at least one of
the two derived files is missing — when both exist it returns its input
world unchanged at once (no contents are read), and otherwise it is
exactly generate_self_signed_cert. -/
theorem ensure_certificate_existence_check (o : Oracle) (m : SSLManager)
    (w : World) :
    ((w.fs.files m.key_path).isSome = true ∧
        (w.fs.files m.cert_path).isSome = true →
      ensure_certificate o m w = (w, Except.ok ())) ∧
    (¬((w.fs.files m.key_path).isSome = true ∧
        (w.fs.files m.cert_path).isSome = true) →
      ensure_certificate o m w = generate_self_signed_cert o m w) :=
  ⟨fun h => ensure_of_exists o m w h.1 h.2,
    fun h => ensure_of_missing o m w h⟩

/-- Witness for C3: with both files present (holding arbitrary raw bytes)
the call is a no-op, and with both missing it is exactly generation. -/
theorem ensure_certificate_existence_check_witness :
    ensure_certificate sampleOracle sampleManager bothRawWorld =
      (bothRawWorld, Except.ok ()) ∧
    ensure_certificate sampleOracle sampleManager sampleWorld =
      generate_self_signed_cert sampleOracle sampleManager sampleWorld :=
  ⟨(ensure_certificate_existence_check sampleOracle sampleManager
      bothRawWorld).1 (by decide),
    (ensure_certificate_existence_check sampleOracle sampleManager
      sampleWorld).2 (by decide)⟩

/-- C5: with a key file present and an invalid (raw) certificate file at
the derived paths, get_ssl_context fails with a load error propagated to
the caller and returns the world exactly as it was — it neither
regenerates nor repairs nor modifies either file. -/
theorem get_ssl_context_corrupted_cert (o : Oracle) (m : SSLManager)
    (w : World) (k : RSAPrivateKey) (s : String)
    (hk : w.fs.files m.key_path = some (FileContent.keyPEM k))
    (hc : w.fs.files m.cert_path = some (FileContent.raw s)) :
    get_ssl_context o m w = (w, Except.error (Err.sslError m.cert_path)) := by
  have he : ensure_certificate o m w = (w, Except.ok ()) :=
    ensure_of_exists o m w (by rw [hk]; rfl) (by rw [hc]; rfl)
  have hl : load_cert_chain w m.cert_path m.key_path =
      Except.error (Err.sslError m.cert_path) := by
    unfold load_cert_chain
    rw [hc, hk]
  unfold get_ssl_context
  rw [he]
  simp only [hl]

/-- Witness for C5: in the corrupted-certificate sample world the context
load fails and the world is untouched. -/
theorem get_ssl_context_corrupted_cert_witness :
    get_ssl_context sampleOracle sampleManager corruptedCertWorld =
      (corruptedCertWorld, Except.error (Err.sslError sampleManager.cert_path)) :=
  get_ssl_context_corrupted_cert sampleOracle sampleManager corruptedCertWorld
    staleKey "garbage" rfl rfl

/-- C6 counterexample: with valid_days = 0 (accepted unvalidated by the
code) and a clock that does not advance, the generated certificate's
not-after time equals its not-before time, so it is not strictly greater
as the claim states for every configured valid_days. -/
theorem validity_window_counterexample :
    ¬((generatedCertificate sampleOracle zeroDayManager sampleWorld).not_valid_before <
      (generatedCertificate sampleOracle zeroDayManager sampleWorld).not_valid_after) := by
  decide

/-- C6 (amended): provided valid_days is at least 1 and the two utcnow
readings taken during generation coincide (the code reads the clock once
for not-before and again for not-after), the certificate's not-before is
the issuance time, its not-after is exactly the issuance time plus
valid_days worth of seconds, and the window is strictly increasing. -/
theorem validity_window_of_generated_cert (o : Oracle) (m : SSLManager)
    (w : World) (h1 : 1 ≤ m.valid_days)
    (h2 : o.now w.clock_calls = o.now (w.clock_calls + 1)) :
    (generatedCertificate o m w).not_valid_before = o.now w.clock_calls ∧
    (generatedCertificate o m w).not_valid_after =
      (generatedCertificate o m w).not_valid_before + m.valid_days * 86400 ∧
    (generatedCertificate o m w).not_valid_before <
      (generatedCertificate o m w).not_valid_after := by
  have hb : (generatedCertificate o m w).not_valid_before =
      o.now w.clock_calls := rfl
  have ha : (generatedCertificate o m w).not_valid_after =
      o.now (w.clock_calls + 1) + m.valid_days * 86400 := rfl
  refine ⟨hb, ?_, ?_⟩
  · rw [ha, hb, ← h2]
  · rw [ha, hb, ← h2]
    omega

/-- Witness for C6 (amended): the sample manager has valid_days 3650 and
the sample clock never advances, so the window is 3650 days wide and
strictly increasing. -/
theorem validity_window_of_generated_cert_witness :
    (generatedCertificate sampleOracle sampleManager sampleWorld).not_valid_before =
      sampleOracle.now sampleWorld.clock_calls ∧
    (generatedCertificate sampleOracle sampleManager sampleWorld).not_valid_after =
      (generatedCertificate sampleOracle sampleManager sampleWorld).not_valid_before +
        sampleManager.valid_days * 86400 ∧
    (generatedCertificate sampleOracle sampleManager sampleWorld).not_valid_before <
      (generatedCertificate sampleOracle sampleManager sampleWorld).not_valid_after :=
  validity_window_of_generated_cert sampleOracle sampleManager sampleWorld
    (by decide) rfl

/-- C7 counterexample: starting from a store holding only a stale
certificate (key file deleted), ensure_certificate regenerates, the key
write succeeds, the certificate write fails, and the store is left holding
a fresh key next to the stale certificate — a certificate on disk that is
not paired with the key material that signed it. -/
theorem pairing_invariant_counterexample :
    (ensure_certificate failSecondWriteOracle sampleManager certOnlyWorld).1.fs.files
        sampleManager.cert_path = some (FileContent.certPEM staleCert) ∧
    (ensure_certificate failSecondWriteOracle sampleManager certOnlyWorld).1.fs.files
        sampleManager.key_path =
      some (FileContent.keyPEM
        (buildKey failSecondWriteOracle sampleManager certOnlyWorld)) ∧
    staleCert.signature_key ≠
      buildKey failSecondWriteOracle sampleManager certOnlyWorld :=
  ⟨rfl, rfl, by decide⟩

/-- C7 (amended): when exactly one of the two files exists and
ensure_certificate completes successfully, it regenerates both files
together, unconditionally overwriting the surviving one, and the resulting
pair is matched — the certificate on disk is signed by exactly the key on
disk.  (When the regeneration fails partway, an unmatched pair can remain,
per the persistence-error behaviour.) -/
theorem pairing_on_successful_regeneration (o : Oracle) (m : SSLManager)
    (w w' : World) (hwf : m.WellFormed)
    (hone : (w.fs.files m.key_path).isSome ≠ (w.fs.files m.cert_path).isSome)
    (h : ensure_certificate o m w = (w', Except.ok ())) :
    w'.fs.files m.key_path = some (FileContent.keyPEM (buildKey o m w)) ∧
    w'.fs.files m.cert_path =
      some (FileContent.certPEM (generatedCertificate o m w)) ∧
    (generatedCertificate o m w).signature_key = buildKey o m w := by
  have hnot : ¬((w.fs.files m.key_path).isSome = true ∧
      (w.fs.files m.cert_path).isSome = true) := by
    intro hboth
    exact hone (hboth.1.trans hboth.2.symm)
  rw [ensure_of_missing o m w hnot] at h
  obtain ⟨hc, hk, -⟩ := generate_ok_spec h
  exact ⟨hk hwf.paths_ne, hc, rfl⟩

/-- Witness for C7 (amended): from a store holding only a stale key, a
successful ensure_certificate overwrites it and leaves a matched fresh
pair. -/
theorem pairing_on_successful_regeneration_witness :
    (ensure_certificate sampleOracle sampleManager keyOnlyWorld).1.fs.files
        sampleManager.key_path =
      some (FileContent.keyPEM (buildKey sampleOracle sampleManager keyOnlyWorld)) ∧
    (ensure_certificate sampleOracle sampleManager keyOnlyWorld).1.fs.files
        sampleManager.cert_path =
      some (FileContent.certPEM
        (generatedCertificate sampleOracle sampleManager keyOnlyWorld)) ∧
    (generatedCertificate sampleOracle sampleManager keyOnlyWorld).signature_key =
      buildKey sampleOracle sampleManager keyOnlyWorld :=
  pairing_on_successful_regeneration sampleOracle sampleManager keyOnlyWorld
    (ensure_certificate sampleOracle sampleManager keyOnlyWorld).1
    ⟨rfl, rfl⟩ (by decide) rfl

/-- C8: persistence is non-atomic — the key file is written before the
certificate file, and when the certificate write fails (here: the write
oracle denies the second write of the run) the error is propagated with no
cleanup: the freshly written key file remains on disk while the
certificate file is left exactly as it was, so an inconsistent pair can
remain. -/
theorem generate_nonatomic_persistence (o : Oracle) (m : SSLManager)
    (w : World) (hwf : m.WellFormed) (hdir : m.cert_dir ∈ w.fs.dirs)
    (h1 : o.write_ok w.write_calls = true)
    (h2 : o.write_ok (w.write_calls + 1) = false) :
    (generate_self_signed_cert o m w).2 =
      Except.error (Err.ioError m.cert_path) ∧
    (generate_self_signed_cert o m w).1.fs.files m.key_path =
      some (FileContent.keyPEM (buildKey o m w)) ∧
    (generate_self_signed_cert o m w).1.fs.files m.cert_path =
      w.fs.files m.cert_path := by
  have hkc : m.key_path ≠ m.cert_path := hwf.paths_ne
  unfold generate_self_signed_cert
  split
  · rename_i w2 e heq
    unfold writeFile at heq
    rw [if_pos ⟨hdir, h1⟩] at heq
    injection heq with hq1 hq2
    cases hq2
  · rename_i w2 heq
    unfold writeFile at heq
    rw [if_pos ⟨hdir, h1⟩] at heq
    injection heq with hq1 hq2
    subst hq1
    split
    · rename_i w3 e heq2
      unfold writeFile at heq2
      rw [if_neg (fun hcond => Bool.noConfusion (hcond.2.symm.trans h2))] at heq2
      injection heq2 with hq3 hq4
      injection hq4 with hq5
      subst hq3
      subst hq5
      refine ⟨rfl, ?_, ?_⟩
      · show (if m.key_path = m.key_path then
            some (FileContent.keyPEM (buildKey o m w))
          else (afterDraws w).fs.files m.key_path) =
          some (FileContent.keyPEM (buildKey o m w))
        rw [if_pos rfl]
      · show (if m.cert_path = m.key_path then
            some (FileContent.keyPEM (buildKey o m w))
          else (afterDraws w).fs.files m.cert_path) =
          w.fs.files m.cert_path
        rw [if_neg (Ne.symm hkc)]
        rfl
    · rename_i w3 heq2
      unfold writeFile at heq2
      rw [if_neg (fun hcond => Bool.noConfusion (hcond.2.symm.trans h2))] at heq2
      injection heq2 with hq3 hq4
      cases hq4

/-- Witness for C8: in the sample world under the oracle that denies the
second write, generation errors on the certificate write and leaves the
fresh key file behind with the certificate file untouched. -/
theorem generate_nonatomic_persistence_witness :
    (generate_self_signed_cert failSecondWriteOracle sampleManager sampleWorld).2 =
      Except.error (Err.ioError sampleManager.cert_path) ∧
    (generate_self_signed_cert failSecondWriteOracle sampleManager sampleWorld).1.fs.files
        sampleManager.key_path =
      some (FileContent.keyPEM
        (buildKey failSecondWriteOracle sampleManager sampleWorld)) ∧
    (generate_self_signed_cert failSecondWriteOracle sampleManager sampleWorld).1.fs.files
        sampleManager.cert_path =
      sampleWorld.fs.files sampleManager.cert_path :=
  generate_nonatomic_persistence failSecondWriteOracle sampleManager sampleWorld
    ⟨rfl, rfl⟩ (by decide) rfl rfl

/-- C9 counterexample: when the store directory is absent at call time,
ensure_certificate does not create it — the call fails with an I/O error
on the key-file write and the directory set is left empty, refuting the
claim that ensure_certificate creates the store directory if absent
(directory creation happens in __init__, not here). -/
theorem ensure_no_mkdir_counterexample :
    (ensure_certificate sampleOracle sampleManager noDirWorld).1.fs.dirs = [] ∧
    (ensure_certificate sampleOracle sampleManager noDirWorld).2 =
      Except.error (Err.ioError sampleManager.key_path) :=
  ⟨rfl, rfl⟩

/-- C9 (amended): it is the constructor, not ensure_certificate, that
creates the store directory if absent as a side effect, so that generation
can persist files; the constructor changes no file, and ensure_certificate
itself never changes the directory set and touches no path on disk other
than possibly the two derived files. -/
theorem mkdir_in_constructor_and_ensure_frame (cn : String)
    (dopt : Option String) (v : Int) (ks : Nat) (home : String)
    (o : Oracle) (m : SSLManager) (w w0 : World) (p : String)
    (hp1 : p ≠ m.key_path) (hp2 : p ≠ m.cert_path) :
    (mkSSLManager cn dopt v ks home w0).1.cert_dir ∈
      (mkSSLManager cn dopt v ks home w0).2.fs.dirs ∧
    (∀ q, (mkSSLManager cn dopt v ks home w0).2.fs.files q = w0.fs.files q) ∧
    (ensure_certificate o m w).1.fs.dirs = w.fs.dirs ∧
    (ensure_certificate o m w).1.fs.files p = w.fs.files p := by
  refine ⟨?_, ?_, ?_, ?_⟩
  · show resolveCertDir dopt home ∈
      (mkdirParents w0.fs (resolveCertDir dopt home)).dirs
    unfold mkdirParents
    split
    · assumption
    · exact List.mem_cons_self _ _
  · intro q
    show (mkdirParents w0.fs (resolveCertDir dopt home)).files q = w0.fs.files q
    unfold mkdirParents
    split
    · rfl
    · rfl
  · unfold ensure_certificate
    split
    · rfl
    · exact (generate_frame o m w).1
  · unfold ensure_certificate
    split
    · rfl
    · exact (generate_frame o m w).2 p hp1 hp2

/-- Witness for C9 (amended): the constructor invoked over the empty world
creates the directory "d" without touching files, and a run of
ensure_certificate in the sample world leaves the directory set and the
unrelated path "other" untouched. -/
theorem mkdir_in_constructor_and_ensure_frame_witness :
    (mkSSLManager "c" (some "d") 3650 2048 "h" noDirWorld).1.cert_dir ∈
      (mkSSLManager "c" (some "d") 3650 2048 "h" noDirWorld).2.fs.dirs ∧
    (mkSSLManager "c" (some "d") 3650 2048 "h" noDirWorld).2.fs.files "other" =
      noDirWorld.fs.files "other" ∧
    (ensure_certificate sampleOracle sampleManager sampleWorld).1.fs.dirs =
      sampleWorld.fs.dirs ∧
    (ensure_certificate sampleOracle sampleManager sampleWorld).1.fs.files "other" =
      sampleWorld.fs.files "other" :=
  ⟨(mkdir_in_constructor_and_ensure_frame "c" (some "d") 3650 2048 "h"
      sampleOracle sampleManager sampleWorld noDirWorld "other"
      (by decide) (by decide)).1,
    (mkdir_in_constructor_and_ensure_frame "c" (some "d") 3650 2048 "h"
      sampleOracle sampleManager sampleWorld noDirWorld "other"
      (by decide) (by decide)).2.1 "other",
    (mkdir_in_constructor_and_ensure_frame "c" (some "d") 3650 2048 "h"
      sampleOracle sampleManager sampleWorld noDirWorld "other"
      (by decide) (by decide)).2.2.1,
    (mkdir_in_constructor_and_ensure_frame "c" (some "d") 3650 2048 "h"
      sampleOracle sampleManager sampleWorld noDirWorld "other"
      (by decide) (by decide)).2.2.2⟩

/-- C10: the serial number of every generated certificate is the next
draw of the random serial source (not a counter kept by the component),
and under the standing assumption that the random source is wide enough
not to repeat within a store (injectivity), two successive invocations of
certificate generation — for instance for two different common names —
yield different serial numbers. -/
theorem serial_numbers_distinct (o : Oracle) (m1 m2 : SSLManager) (w : World)
    (hinj : Function.Injective o.serial) :
    (generatedCertificate o m1 w).serial_number = o.serial w.serial_calls ∧
    (generatedCertificate o m2
        (generate_self_signed_cert o m1 w).1).serial_number ≠
      (generatedCertificate o m1 w).serial_number := by
  refine ⟨rfl, ?_⟩
  intro h
  have h' : o.serial ((generate_self_signed_cert o m1 w).1.serial_calls) =
      o.serial w.serial_calls := h
  rw [generate_serial_calls o m1 w] at h'
  have := hinj h'
  omega

/-- Witness for C10: generating for "c" and then for "b" in the sample
world yields serial 0 and then serial 1. -/
theorem serial_numbers_distinct_witness :
    (generatedCertificate sampleOracle sampleManager sampleWorld).serial_number =
      sampleOracle.serial sampleWorld.serial_calls ∧
    (generatedCertificate sampleOracle sampleManagerB
        (generate_self_signed_cert sampleOracle sampleManager sampleWorld).1).serial_number ≠
      (generatedCertificate sampleOracle sampleManager sampleWorld).serial_number :=
  serial_numbers_distinct sampleOracle sampleManager sampleManagerB sampleWorld
    (fun _ _ hab => hab)

end SSLSetup
